import Mathlib

/-!
Shallow embedding of `src/client.c` from hlandau/expect-ct-lite.

The policy logic lives in `on_ct_validation` (client.c:18-85): given the
stack of SCTs delivered during a TLS handshake, count those delivered via a
CA-signed channel (X509v3 extension or OCSP stapled response) and accept the
connection iff at least one such SCT is present.  `configure_ct_lite_enforcement`
(client.c:88-103) enables CT validation mode and installs the callback.

Machine integers: the C `int` counters stay well within range for any
realistic SCT stack, and the source models them as mathematical integers
(`Int` for the possibly-negative `sk_SCT_num` result, `Nat` for the
non-negative running counter).  The `STACK_OF(SCT)*` argument is modelled as
`Option (List SCT)`: `none` is a NULL stack (for which `sk_SCT_num` returns
-1), `some l` a stack holding the SCTs `l` in order.  Diagnostic output to
stderr is modelled as a trace of `LogEvent`s; the `BIO_new_fp` allocation
that gates `SCT_print` dumps is modelled by a boolean `bioOk`.  The
`assert(sct)` in the classification loop is modelled by returning `none`
(assertion failure) when `sk_SCT_value` yields NULL.
-/

/-- An SCT as consumed by the policy: the delivery `source`
(OpenSSL `sct_source_t`, kept as a raw numeric value so that the
`default:` arm of the C switch — any unrecognized value — is expressible)
plus the opaque payload fields, which the policy never inspects but
`SCT_print` dumps. -/
structure SCT where
  source : Nat
  logId : List Nat
  timestamp : Nat
  signature : List Nat
deriving DecidableEq, Repr

/-- OpenSSL `SCT_SOURCE_UNKNOWN`. -/
def SCT_SOURCE_UNKNOWN : Nat := 0
/-- OpenSSL `SCT_SOURCE_TLS_EXTENSION`. -/
def SCT_SOURCE_TLS_EXTENSION : Nat := 1
/-- OpenSSL `SCT_SOURCE_X509V3_EXTENSION`. -/
def SCT_SOURCE_X509V3_EXTENSION : Nat := 2
/-- OpenSSL `SCT_SOURCE_OCSP_STAPLED_RESPONSE`. -/
def SCT_SOURCE_OCSP_STAPLED_RESPONSE : Nat := 3

/-- OpenSSL `SSL_CT_VALIDATION_STRICT`. -/
def SSL_CT_VALIDATION_STRICT : Nat := 1

/-- `SCT_get_source` accessor. -/
def SCT_get_source (sct : SCT) : Nat := sct.source

/-- `sk_SCT_num`: number of elements of the stack, -1 for a NULL stack. -/
def sk_SCT_num : Option (List SCT) → Int
  | none => -1
  | some l => l.length

/-- `sk_SCT_value`: element at index `i`, NULL (`none`) when the stack is
NULL or the index is out of range. -/
def sk_SCT_value (scts : Option (List SCT)) (i : Nat) : Option SCT :=
  match scts with
  | none => none
  | some l => l[i]?

/-- One diagnostic line written to stderr by `on_ct_validation`.  Each
constructor corresponds to one `fprintf`/`SCT_print` in client.c; the
constructor names abbreviate the literal message texts. -/
inductive LogEvent where
  /-- "No SCTs received, not considering this connection valid" (line 25). -/
  | noScts : LogEvent
  /-- "SCTs:" header (line 30). -/
  | sctsHeader : LogEvent
  /-- `SCT_print` human-readable dump of all fields of one SCT (line 45). -/
  | dump : SCT → LogEvent
  /-- "==> Got an SCT delivered via X509v3 (CA-signed)" (line 51). -/
  | viaX509 : LogEvent
  /-- "==> Got an SCT delivered via OCSP (CA-signed)" (line 56). -/
  | viaOCSP : LogEvent
  /-- "==> Got an SCT delivered via TLS extension (not CA-signed)" (line 61). -/
  | viaTLS : LogEvent
  /-- "==> Got an SCT delivered via unknown source (assuming not CA-signed)" (line 65). -/
  | viaUnknownSource : LogEvent
  /-- "No SCTs were received via a CA-signed delivery method, not considering
  this connection valid" (lines 74-75). -/
  | noSignedScts : LogEvent
  /-- "Got %d SCTs of which %d were via CA-signed channels, considering this
  connection valid" with the total and CA-signed counts (lines 79-80). -/
  | summary : Nat → Nat → LogEvent
  /-- "SCT signatures have NOT been validated" (line 82). -/
  | sigsNotValidated : LogEvent
deriving DecidableEq, Repr

/-- The `switch (SCT_get_source(sct))` of client.c:49-67: the classification
line emitted for one SCT and the increment applied to `num_signed_sct`. -/
def classifySCT (sct : SCT) : LogEvent × Nat :=
  if SCT_get_source sct = SCT_SOURCE_X509V3_EXTENSION then
    (LogEvent.viaX509, 1)
  else if SCT_get_source sct = SCT_SOURCE_OCSP_STAPLED_RESPONSE then
    (LogEvent.viaOCSP, 1)
  else if SCT_get_source sct = SCT_SOURCE_TLS_EXTENSION then
    (LogEvent.viaTLS, 0)
  else
    (LogEvent.viaUnknownSource, 0)

/-- The body of the `for` loop of client.c:39-68, iterated over the given
index list (the C loop uses `List.range num_sct`).  Returns the final
`num_signed_sct` and the emitted trace, or `none` if the `assert(sct)` at
line 42 would fail (i.e. `sk_SCT_value` returned NULL). -/
def sctLoop (scts : Option (List SCT)) (bioOk : Bool) :
    List Nat → Nat → Option (Nat × List LogEvent)
  | [], numSigned => some (numSigned, [])
  | i :: rest, numSigned =>
    match sk_SCT_value scts i with
    | none => none
    | some sct =>
      let dumpEvs := if bioOk then [LogEvent.dump sct] else []
      let cls := classifySCT sct
      match sctLoop scts bioOk rest (numSigned + cls.2) with
      | none => none
      | some (finalSigned, evs) => some (finalSigned, dumpEvs ++ cls.1 :: evs)

/-- `on_ct_validation` (client.c:18-85).  `bioOk` models whether
`BIO_new_fp(stderr, BIO_NOCLOSE)` succeeded (line 29); the SCT dumps at
line 45 are only emitted when it did.  Result: the `int` verdict returned
to OpenSSL together with the stderr trace, or `none` if the assertion at
line 42 fails. -/
def on_ct_validation (bioOk : Bool) (scts : Option (List SCT)) :
    Option (Int × List LogEvent) :=
  let num_sct : Int := sk_SCT_num scts
  if num_sct ≤ 0 then
    some (0, [LogEvent.noScts])
  else
    match sctLoop scts bioOk (List.range num_sct.toNat) 0 with
    | none => none
    | some (num_signed_sct, evs) =>
      if num_signed_sct = 0 then
        some (0, LogEvent.sctsHeader :: evs ++ [LogEvent.noSignedScts])
      else
        some (1, LogEvent.sctsHeader :: evs ++
          [LogEvent.summary num_sct.toNat num_signed_sct,
           LogEvent.sigsNotValidated])

/-- One configuration call made by `configure_ct_lite_enforcement`. -/
inductive CfgStep where
  /-- `SSL_CTX_enable_ct(ctx, mode)` with the given validation mode (line 96). -/
  | enableCT : Nat → CfgStep
  /-- `SSL_CTX_set_ct_validation_callback(ctx, on_ct_validation, NULL)` (line 99). -/
  | setCtValidationCallback : CfgStep
deriving DecidableEq, Repr

/-- `configure_ct_lite_enforcement` (client.c:88-103).  The outcomes of the
two OpenSSL calls are modelled by the booleans `enableOk` and `setCbOk`;
the result is the `int` return value together with the sequence of
configuration calls actually attempted. -/
def configure_ct_lite_enforcement (enableOk setCbOk : Bool) :
    Int × List CfgStep :=
  if enableOk = false then
    (0, [CfgStep.enableCT SSL_CT_VALIDATION_STRICT])
  else if setCbOk = false then
    (0, [CfgStep.enableCT SSL_CT_VALIDATION_STRICT,
         CfgStep.setCtValidationCallback])
  else
    (1, [CfgStep.enableCT SSL_CT_VALIDATION_STRICT,
         CfgStep.setCtValidationCallback])

/-- A source counts toward `num_signed_sct` iff it is one of the two
CA-signed delivery channels. -/
def isSignedSource (src : Nat) : Bool :=
  src == SCT_SOURCE_X509V3_EXTENSION || src == SCT_SOURCE_OCSP_STAPLED_RESPONSE

/-- Straight-line list recursion equivalent of the indexed `for` loop:
the signed count and the trace produced for one pass over the SCT list. -/
def loopSpec (bioOk : Bool) : List SCT → Nat × List LogEvent
  | [] => (0, [])
  | sct :: rest =>
    let cls := classifySCT sct
    let r := loopSpec bioOk rest
    (cls.2 + r.1,
     (if bioOk then [LogEvent.dump sct] else []) ++ cls.1 :: r.2)

/-- The classification increment of one SCT is `1` exactly on the CA-signed
sources. -/
lemma classifySCT_snd (sct : SCT) :
    (classifySCT sct).2 = if isSignedSource sct.source then 1 else 0 := by
  simp only [classifySCT, isSignedSource, SCT_get_source,
    SCT_SOURCE_X509V3_EXTENSION, SCT_SOURCE_OCSP_STAPLED_RESPONSE,
    SCT_SOURCE_TLS_EXTENSION]
  by_cases h2 : sct.source = 2
  · simp [h2]
  · by_cases h3 : sct.source = 3
    · simp [h2, h3]
    · by_cases h1 : sct.source = 1 <;> simp [h1, h2, h3]

/-- The signed count computed by `loopSpec` is the number of SCTs with a
CA-signed source. -/
lemma loopSpec_fst (bioOk : Bool) (l : List SCT) :
    (loopSpec bioOk l).1 = l.countP (fun sct => isSignedSource sct.source) := by
  induction l with
  | nil => simp [loopSpec]
  | cons sct rest ih =>
    simp only [loopSpec, List.countP_cons, ih, classifySCT_snd]
    cases h : isSignedSource sct.source <;> simp [h]
    omega

/-- The indexed loop over `List.range' a n`, run on the stack `some l` with
all indices in range, agrees with `loopSpec` on the corresponding slice of
`l` and adds the accumulated signed count. -/
lemma sctLoop_range' (bioOk : Bool) (l : List SCT) :
    ∀ (n a acc : Nat), a + n ≤ l.length →
    sctLoop (some l) bioOk (List.range' a n) acc =
      some (acc + (loopSpec bioOk ((l.drop a).take n)).1,
            (loopSpec bioOk ((l.drop a).take n)).2) := by
  intro n
  induction n with
  | zero => intro a acc _; simp [sctLoop, loopSpec]
  | succ n ih =>
    intro a acc h
    have ha : a < l.length := by omega
    have hdrop : l.drop a = l[a] :: l.drop (a + 1) :=
      List.drop_eq_getElem_cons ha
    have hval : sk_SCT_value (some l) a = some l[a] := by
      simp [sk_SCT_value, List.getElem?_eq_getElem ha]
    rw [List.range'_succ]
    simp only [sctLoop, hval]
    rw [ih (a + 1) (acc + (classifySCT l[a]).2) (by omega)]
    rw [hdrop]
    simp [loopSpec, Nat.add_assoc]

/-- The C loop (indices `0 .. l.length`) on a non-NULL stack computes the
`loopSpec` fold of the whole list. -/
lemma sctLoop_full (bioOk : Bool) (l : List SCT) :
    sctLoop (some l) bioOk (List.range l.length) 0 =
      some (loopSpec bioOk l) := by
  have := sctLoop_range' bioOk l l.length 0 0 (by omega)
  simpa [List.range_eq_range'] using this

/-- The number of CA-signed SCTs in a list. -/
def signedCount (l : List SCT) : Nat :=
  l.countP (fun sct => isSignedSource sct.source)

/-- Full characterization of `on_ct_validation` on a non-NULL stack: the
empty-stack early return, the reject branch when no SCT came via a
CA-signed channel, and the accept branch otherwise, each with its trace. -/
lemma on_ct_validation_some (bioOk : Bool) (l : List SCT) :
    on_ct_validation bioOk (some l) =
      if l.length = 0 then some (0, [LogEvent.noScts])
      else if signedCount l = 0 then
        some (0, LogEvent.sctsHeader :: (loopSpec bioOk l).2 ++
          [LogEvent.noSignedScts])
      else
        some (1, LogEvent.sctsHeader :: (loopSpec bioOk l).2 ++
          [LogEvent.summary l.length (signedCount l),
           LogEvent.sigsNotValidated]) := by
  by_cases hl : l.length = 0
  · simp [on_ct_validation, sk_SCT_num, hl]
  · have hpos : (0 : Int) < (l.length : Int) := by
      exact_mod_cast Nat.pos_of_ne_zero hl
    have htn : ((l.length : Int)).toNat = l.length := by simp
    simp only [on_ct_validation, sk_SCT_num]
    rw [if_neg (by omega), htn, sctLoop_full]
    have hfst := loopSpec_fst bioOk l
    rcases hsp : loopSpec bioOk l with ⟨n, evs⟩
    rw [hsp] at hfst
    simp only at hfst
    have hsc : signedCount l = n := by rw [signedCount, ← hfst]
    rw [if_neg hl, hsc]

/-- The verdict alone: `1` iff at least one SCT has a CA-signed source,
`0` otherwise (also when the list is empty). -/
lemma on_ct_validation_verdict (bioOk : Bool) (l : List SCT) :
    (on_ct_validation bioOk (some l)).map Prod.fst =
      some (if signedCount l = 0 then 0 else 1) := by
  rw [on_ct_validation_some]
  by_cases hl : l.length = 0
  · have hnil : l = [] := List.length_eq_zero.mp hl
    subst hnil
    simp [signedCount]
  · by_cases hs : signedCount l = 0 <;> simp [hl, hs]

/-- The classification line emitted for an SCT is one of the four
`==> Got an SCT delivered via ...` messages. -/
lemma classifySCT_fst_cases (sct : SCT) :
    (classifySCT sct).1 = LogEvent.viaX509 ∨
    (classifySCT sct).1 = LogEvent.viaOCSP ∨
    (classifySCT sct).1 = LogEvent.viaTLS ∨
    (classifySCT sct).1 = LogEvent.viaUnknownSource := by
  simp only [classifySCT]
  split_ifs <;> simp

/-- Every SCT of the list gets its classification line in the loop trace. -/
lemma classify_mem_loopSpec (bioOk : Bool) (l : List SCT) :
    ∀ sct ∈ l, (classifySCT sct).1 ∈ (loopSpec bioOk l).2 := by
  induction l with
  | nil => simp
  | cons a rest ih =>
    intro sct hmem
    rcases List.mem_cons.mp hmem with h | h
    · subst h; simp [loopSpec]
    · simp only [loopSpec]
      have := ih sct h
      simp [this]

/-- When the stderr BIO is available, every SCT of the list gets its
`SCT_print` dump in the loop trace. -/
lemma dump_mem_loopSpec (l : List SCT) :
    ∀ sct ∈ l, LogEvent.dump sct ∈ (loopSpec true l).2 := by
  induction l with
  | nil => simp
  | cons a rest ih =>
    intro sct hmem
    rcases List.mem_cons.mp hmem with h | h
    · subst h; simp [loopSpec]
    · simp only [loopSpec]
      have := ih sct h
      simp [this]

/-- Every event of the loop trace is an SCT dump or a classification line:
the loop never emits a summary, a disclaimer, or a rejection notice. -/
lemma loopSpec_trace_shape (bioOk : Bool) (l : List SCT) :
    ∀ e ∈ (loopSpec bioOk l).2,
      (∃ sct, e = LogEvent.dump sct) ∨
      e = LogEvent.viaX509 ∨ e = LogEvent.viaOCSP ∨
      e = LogEvent.viaTLS ∨ e = LogEvent.viaUnknownSource := by
  induction l with
  | nil => simp [loopSpec]
  | cons a rest ih =>
    intro e hmem
    simp only [loopSpec, List.mem_append, List.mem_cons] at hmem
    rcases hmem with hd | hc | hr
    · rcases bioOk with _ | _ <;> simp_all
    · subst hc
      rcases classifySCT_fst_cases a with h | h | h | h <;> simp [h]
    · exact ih e hr

/-- No `summary` event ever appears in the classification-loop trace. -/
lemma summary_not_in_loopSpec (bioOk : Bool) (l : List SCT) (t s : Nat) :
    LogEvent.summary t s ∉ (loopSpec bioOk l).2 := by
  intro hmem
  rcases loopSpec_trace_shape bioOk l _ hmem with ⟨sct, h⟩ | h | h | h | h <;>
    simp at h

/-- The `sigsNotValidated` disclaimer never appears in the
classification-loop trace. -/
lemma sigsNotValidated_not_in_loopSpec (bioOk : Bool) (l : List SCT) :
    LogEvent.sigsNotValidated ∉ (loopSpec bioOk l).2 := by
  intro hmem
  rcases loopSpec_trace_shape bioOk l _ hmem with ⟨sct, h⟩ | h | h | h | h <;>
    simp at h

/-- C1: every SCT collection containing at least one SCT delivered via the
X509v3 extension or an OCSP stapled response is accepted (verdict 1),
regardless of what other SCTs are present. -/
theorem accepts_any_ca_signed_sct (bioOk : Bool) (l : List SCT)
    (h : ∃ sct ∈ l, SCT_get_source sct = SCT_SOURCE_X509V3_EXTENSION ∨
         SCT_get_source sct = SCT_SOURCE_OCSP_STAPLED_RESPONSE) :
    (on_ct_validation bioOk (some l)).map Prod.fst = some 1 := by
  rw [on_ct_validation_verdict]
  rcases h with ⟨sct, hmem, hsrc⟩
  have hp : isSignedSource sct.source = true := by
    simp only [SCT_get_source, SCT_SOURCE_X509V3_EXTENSION,
      SCT_SOURCE_OCSP_STAPLED_RESPONSE] at hsrc
    simp only [isSignedSource, SCT_SOURCE_X509V3_EXTENSION,
      SCT_SOURCE_OCSP_STAPLED_RESPONSE, Bool.or_eq_true, beq_iff_eq]
    exact hsrc
  have hne : signedCount l ≠ 0 := by
    intro h0
    have := List.countP_eq_zero.mp h0 sct hmem
    simp [hp] at this
  simp [hne]

/-- C1 witness: a collection holding one X509v3-delivered SCT and one
TLS-delivered SCT is accepted. -/
theorem accepts_any_ca_signed_sct_witness :
    (∃ sct ∈ [SCT.mk SCT_SOURCE_X509V3_EXTENSION [] 0 [],
              SCT.mk SCT_SOURCE_TLS_EXTENSION [] 0 []],
       SCT_get_source sct = SCT_SOURCE_X509V3_EXTENSION ∨
       SCT_get_source sct = SCT_SOURCE_OCSP_STAPLED_RESPONSE) ∧
    (on_ct_validation true
      (some [SCT.mk SCT_SOURCE_X509V3_EXTENSION [] 0 [],
             SCT.mk SCT_SOURCE_TLS_EXTENSION [] 0 []])).map Prod.fst =
      some 1 :=
  ⟨by decide, accepts_any_ca_signed_sct true _ (by decide)⟩

/-- C2: a non-empty SCT collection in which no SCT was delivered via the
X509v3 extension or an OCSP stapled response (only the TLS extension or
unrecognized sources) is rejected (verdict 0). -/
theorem rejects_unsigned_only_collection (bioOk : Bool) (l : List SCT)
    (_hne : l ≠ [])
    (h : ∀ sct ∈ l, SCT_get_source sct ≠ SCT_SOURCE_X509V3_EXTENSION ∧
         SCT_get_source sct ≠ SCT_SOURCE_OCSP_STAPLED_RESPONSE) :
    (on_ct_validation bioOk (some l)).map Prod.fst = some 0 := by
  rw [on_ct_validation_verdict]
  have h0 : signedCount l = 0 := by
    rw [signedCount, List.countP_eq_zero]
    intro a ha
    have h2 := h a ha
    simp only [SCT_get_source, SCT_SOURCE_X509V3_EXTENSION,
      SCT_SOURCE_OCSP_STAPLED_RESPONSE] at h2
    simp [isSignedSource, SCT_SOURCE_X509V3_EXTENSION,
      SCT_SOURCE_OCSP_STAPLED_RESPONSE, h2.1, h2.2]
  simp [h0]

/-- C2 witness: a collection of one TLS-delivered SCT and one
unknown-source SCT is rejected. -/
theorem rejects_unsigned_only_collection_witness :
    ([SCT.mk SCT_SOURCE_TLS_EXTENSION [] 0 [],
      SCT.mk SCT_SOURCE_UNKNOWN [] 0 []] ≠ ([] : List SCT)) ∧
    (∀ sct ∈ [SCT.mk SCT_SOURCE_TLS_EXTENSION [] 0 [],
              SCT.mk SCT_SOURCE_UNKNOWN [] 0 []],
       SCT_get_source sct ≠ SCT_SOURCE_X509V3_EXTENSION ∧
       SCT_get_source sct ≠ SCT_SOURCE_OCSP_STAPLED_RESPONSE) ∧
    (on_ct_validation true
      (some [SCT.mk SCT_SOURCE_TLS_EXTENSION [] 0 [],
             SCT.mk SCT_SOURCE_UNKNOWN [] 0 []])).map Prod.fst = some 0 :=
  ⟨by decide, by decide,
   rejects_unsigned_only_collection true _ (by decide) (by decide)⟩

/-- C3: the empty SCT collection is rejected (verdict 0), with the
"No SCTs received" diagnostic. -/
theorem rejects_empty_collection (bioOk : Bool) :
    on_ct_validation bioOk (some []) = some (0, [LogEvent.noScts]) := by
  simp [on_ct_validation, sk_SCT_num]

/-- Whether a diagnostic line is the count summary ("Got %d SCTs of which
%d were via CA-signed channels ..."). -/
def isSummaryEvent : LogEvent → Bool
  | LogEvent.summary _ _ => true
  | _ => false

/-- C4 counterexample: on the collection holding a single TLS-delivered
SCT the verdict is Reject, yet the emitted trace contains no final summary
line with the counts and no "SCT signatures have NOT been validated"
disclaimer — those lines are only printed on the Accept path, contradicting
the claim that they are emitted regardless of verdict. -/
theorem reject_path_lacks_summary_counterexample :
    on_ct_validation true (some [SCT.mk SCT_SOURCE_TLS_EXTENSION [] 0 []]) =
      some (0, [LogEvent.sctsHeader,
                LogEvent.dump (SCT.mk SCT_SOURCE_TLS_EXTENSION [] 0 []),
                LogEvent.viaTLS, LogEvent.noSignedScts]) ∧
    ([LogEvent.sctsHeader,
      LogEvent.dump (SCT.mk SCT_SOURCE_TLS_EXTENSION [] 0 []),
      LogEvent.viaTLS, LogEvent.noSignedScts].all
        (fun e => !isSummaryEvent e && !(e == LogEvent.sigsNotValidated))) =
      true := by
  constructor <;> decide

/-- C4 amended: for every non-empty SCT collection the evaluator emits the
"SCTs:" header, a classification line for every SCT and (when the stderr
BIO is available) a dump of every SCT; on an Accept verdict it additionally
emits the final summary line with the total and CA-attested counts and the
"signatures NOT validated" disclaimer, while on a Reject verdict it instead
emits only the rejection notice, with no summary line and no disclaimer. -/
theorem diagnostics_per_verdict (bioOk : Bool) (l : List SCT)
    (hne : l ≠ []) :
    ∃ v tr, on_ct_validation bioOk (some l) = some (v, tr) ∧
      LogEvent.sctsHeader ∈ tr ∧
      (∀ sct ∈ l, (classifySCT sct).1 ∈ tr) ∧
      (bioOk = true → ∀ sct ∈ l, LogEvent.dump sct ∈ tr) ∧
      ((v = 1 ∧ LogEvent.summary l.length (signedCount l) ∈ tr ∧
        LogEvent.sigsNotValidated ∈ tr) ∨
       (v = 0 ∧ LogEvent.noSignedScts ∈ tr ∧
        LogEvent.sigsNotValidated ∉ tr ∧
        ∀ t s, LogEvent.summary t s ∉ tr)) := by
  have hl : ¬ l.length = 0 := by simpa [List.length_eq_zero] using hne
  rw [on_ct_validation_some, if_neg hl]
  by_cases hs : signedCount l = 0
  · rw [if_pos hs]
    refine ⟨0, _, rfl, by simp, ?_, ?_, Or.inr ⟨rfl, by simp, ?_, ?_⟩⟩
    · intro sct hmem
      have := classify_mem_loopSpec bioOk l sct hmem
      simp [this]
    · intro hbio sct hmem
      subst hbio
      have := dump_mem_loopSpec l sct hmem
      simp [this]
    · have h1 := sigsNotValidated_not_in_loopSpec bioOk l
      simp [h1]
    · intro t s
      have h1 := summary_not_in_loopSpec bioOk l t s
      simp [h1]
  · rw [if_neg hs]
    refine ⟨1, _, rfl, by simp, ?_, ?_, Or.inl ⟨rfl, by simp, by simp⟩⟩
    · intro sct hmem
      have := classify_mem_loopSpec bioOk l sct hmem
      simp [this]
    · intro hbio sct hmem
      subst hbio
      have := dump_mem_loopSpec l sct hmem
      simp [this]

/-- C4-amended witness: the single-SCT X509v3 collection exercises the
Accept branch of the amended diagnostics theorem. -/
theorem diagnostics_per_verdict_witness :
    ([SCT.mk SCT_SOURCE_X509V3_EXTENSION [] 0 []] ≠ ([] : List SCT)) ∧
    (∃ v tr, on_ct_validation true
        (some [SCT.mk SCT_SOURCE_X509V3_EXTENSION [] 0 []]) = some (v, tr) ∧
      LogEvent.sctsHeader ∈ tr ∧
      (∀ sct ∈ [SCT.mk SCT_SOURCE_X509V3_EXTENSION [] 0 []],
        (classifySCT sct).1 ∈ tr) ∧
      (true = true → ∀ sct ∈ [SCT.mk SCT_SOURCE_X509V3_EXTENSION [] 0 []],
        LogEvent.dump sct ∈ tr) ∧
      ((v = 1 ∧ LogEvent.summary
          [SCT.mk SCT_SOURCE_X509V3_EXTENSION [] 0 []].length
          (signedCount [SCT.mk SCT_SOURCE_X509V3_EXTENSION [] 0 []]) ∈ tr ∧
        LogEvent.sigsNotValidated ∈ tr) ∨
       (v = 0 ∧ LogEvent.noSignedScts ∈ tr ∧
        LogEvent.sigsNotValidated ∉ tr ∧
        ∀ t s, LogEvent.summary t s ∉ tr))) :=
  ⟨by decide, diagnostics_per_verdict true _ (by decide)⟩

/-- C5: the verdict depends only on the per-position delivery sources of
the SCTs: two collections with identical source sequences (but possibly
different log ids, timestamps and signatures) get the same verdict. -/
theorem verdict_ignores_payload (bioOk : Bool) (l1 l2 : List SCT)
    (h : l1.map SCT.source = l2.map SCT.source) :
    (on_ct_validation bioOk (some l1)).map Prod.fst =
      (on_ct_validation bioOk (some l2)).map Prod.fst := by
  have key : ∀ l : List SCT,
      signedCount l = (l.map SCT.source).countP isSignedSource := by
    intro l
    rw [signedCount, List.countP_map]
    rfl
  rw [on_ct_validation_verdict, on_ct_validation_verdict, key l1, key l2, h]

/-- C5 witness: two single-SCT collections agreeing on the source but with
different payloads get the same verdict. -/
theorem verdict_ignores_payload_witness :
    ([SCT.mk SCT_SOURCE_X509V3_EXTENSION [1, 2] 77 [9]].map SCT.source =
      [SCT.mk SCT_SOURCE_X509V3_EXTENSION [] 0 []].map SCT.source) ∧
    (on_ct_validation true
        (some [SCT.mk SCT_SOURCE_X509V3_EXTENSION [1, 2] 77 [9]])).map
        Prod.fst =
      (on_ct_validation true
        (some [SCT.mk SCT_SOURCE_X509V3_EXTENSION [] 0 []])).map Prod.fst :=
  ⟨by decide, verdict_ignores_payload true _ _ (by decide)⟩

/-- C6: permuting the SCT collection does not change the verdict. -/
theorem verdict_perm_invariant (bioOk : Bool) (l1 l2 : List SCT)
    (h : l1.Perm l2) :
    (on_ct_validation bioOk (some l1)).map Prod.fst =
      (on_ct_validation bioOk (some l2)).map Prod.fst := by
  rw [on_ct_validation_verdict, on_ct_validation_verdict, signedCount,
    signedCount, h.countP_eq]

/-- C6 witness: swapping the two SCTs of a two-element collection leaves
the verdict unchanged. -/
theorem verdict_perm_invariant_witness :
    ([SCT.mk SCT_SOURCE_X509V3_EXTENSION [] 0 [],
      SCT.mk SCT_SOURCE_TLS_EXTENSION [] 0 []].Perm
      [SCT.mk SCT_SOURCE_TLS_EXTENSION [] 0 [],
       SCT.mk SCT_SOURCE_X509V3_EXTENSION [] 0 []]) ∧
    (on_ct_validation true
        (some [SCT.mk SCT_SOURCE_X509V3_EXTENSION [] 0 [],
               SCT.mk SCT_SOURCE_TLS_EXTENSION [] 0 []])).map Prod.fst =
      (on_ct_validation true
        (some [SCT.mk SCT_SOURCE_TLS_EXTENSION [] 0 [],
               SCT.mk SCT_SOURCE_X509V3_EXTENSION [] 0 []])).map Prod.fst :=
  ⟨List.Perm.swap _ _ _,
   verdict_perm_invariant true _ _ (List.Perm.swap _ _ _)⟩

/-- C7: the policy never fails: on every input — NULL stack included — it
returns exactly one of the two verdicts 0 (Reject) or 1 (Accept), and a
NULL (absent) collection is rejected with the "No SCTs received"
diagnostic rather than an error. -/
theorem policy_total_boolean_verdict (bioOk : Bool)
    (scts : Option (List SCT)) :
    (∃ v tr, on_ct_validation bioOk scts = some (v, tr) ∧
      (v = 0 ∨ v = 1)) ∧
    on_ct_validation bioOk none = some (0, [LogEvent.noScts]) := by
  constructor
  · cases scts with
    | none =>
      exact ⟨0, [LogEvent.noScts], by simp [on_ct_validation, sk_SCT_num],
        Or.inl rfl⟩
    | some l =>
      rw [on_ct_validation_some]
      by_cases hl : l.length = 0
      · rw [if_pos hl]
        exact ⟨0, _, rfl, Or.inl rfl⟩
      · rw [if_neg hl]
        by_cases hs : signedCount l = 0
        · rw [if_pos hs]
          exact ⟨0, _, rfl, Or.inl rfl⟩
        · rw [if_neg hs]
          exact ⟨1, _, rfl, Or.inr rfl⟩
  · simp [on_ct_validation, sk_SCT_num]

/-- C8: `configure_ct_lite_enforcement` succeeds (returns 1) exactly when
both `SSL_CTX_enable_ct` (with strict validation) and
`SSL_CTX_set_ct_validation_callback` succeed; it returns 0 whenever either
fails, and on success it has performed exactly the two mandatory calls in
order. -/
theorem configure_both_steps_or_fail (enableOk setCbOk : Bool) :
    ((configure_ct_lite_enforcement enableOk setCbOk).1 = 1 ↔
      enableOk = true ∧ setCbOk = true) ∧
    ((configure_ct_lite_enforcement enableOk setCbOk).1 = 0 ↔
      enableOk = false ∨ setCbOk = false) ∧
    ((configure_ct_lite_enforcement enableOk setCbOk).1 = 1 →
      (configure_ct_lite_enforcement enableOk setCbOk).2 =
        [CfgStep.enableCT SSL_CT_VALIDATION_STRICT,
         CfgStep.setCtValidationCallback]) := by
  rcases enableOk with _ | _ <;> rcases setCbOk with _ | _ <;> decide

/-- C9: the verdict is monotone under appending an SCT: whatever the new
SCT's source and payload, appending it to an accepted collection still
yields Accept. -/
theorem verdict_monotone_append (bioOk : Bool) (l : List SCT) (x : SCT)
    (h : (on_ct_validation bioOk (some l)).map Prod.fst = some 1) :
    (on_ct_validation bioOk (some (l ++ [x]))).map Prod.fst = some 1 := by
  rw [on_ct_validation_verdict] at h ⊢
  have hc : signedCount l ≠ 0 := by
    intro h0
    simp [h0] at h
  have hne : signedCount (l ++ [x]) ≠ 0 := by
    rw [signedCount, List.countP_append]
    rw [signedCount] at hc
    omega
  simp [hne]

/-- C9 witness: appending an unknown-source SCT to an accepted single-SCT
collection keeps the verdict at Accept. -/
theorem verdict_monotone_append_witness :
    ((on_ct_validation true
        (some [SCT.mk SCT_SOURCE_OCSP_STAPLED_RESPONSE [] 0 []])).map
        Prod.fst = some 1) ∧
    ((on_ct_validation true
        (some ([SCT.mk SCT_SOURCE_OCSP_STAPLED_RESPONSE [] 0 []] ++
               [SCT.mk SCT_SOURCE_UNKNOWN [] 0 []]))).map Prod.fst =
      some 1) :=
  ⟨by decide, verdict_monotone_append true _ _ (by decide)⟩

/-- C10: on a non-NULL, non-empty stack whose every index yields a non-NULL
SCT, the `assert(sct)` of the classification loop never fires and the
evaluation terminates with a verdict (the result is `some`, never the
`none` that models an assertion failure). -/
theorem loop_assertion_never_fails (bioOk : Bool) (l : List SCT)
    (hne : l ≠ [])
    (_hval : ∀ i, i < l.length → (sk_SCT_value (some l) i).isSome = true) :
    ∃ v tr, on_ct_validation bioOk (some l) = some (v, tr) := by
  have hl : ¬ l.length = 0 := by simpa [List.length_eq_zero] using hne
  rw [on_ct_validation_some, if_neg hl]
  by_cases hs : signedCount l = 0
  · rw [if_pos hs]
    exact ⟨0, _, rfl⟩
  · rw [if_neg hs]
    exact ⟨1, _, rfl⟩

/-- C10 witness: the two-element stack of one TLS and one X509v3 SCT
satisfies the precondition and evaluates to a verdict. -/
theorem loop_assertion_never_fails_witness :
    ([SCT.mk SCT_SOURCE_TLS_EXTENSION [] 0 [],
      SCT.mk SCT_SOURCE_X509V3_EXTENSION [] 0 []] ≠ ([] : List SCT)) ∧
    (∀ i, i < [SCT.mk SCT_SOURCE_TLS_EXTENSION [] 0 [],
               SCT.mk SCT_SOURCE_X509V3_EXTENSION [] 0 []].length →
      (sk_SCT_value
        (some [SCT.mk SCT_SOURCE_TLS_EXTENSION [] 0 [],
               SCT.mk SCT_SOURCE_X509V3_EXTENSION [] 0 []]) i).isSome =
        true) ∧
    (∃ v tr, on_ct_validation true
        (some [SCT.mk SCT_SOURCE_TLS_EXTENSION [] 0 [],
               SCT.mk SCT_SOURCE_X509V3_EXTENSION [] 0 []]) =
      some (v, tr)) :=
  ⟨by decide, by decide,
   loop_assertion_never_fails true _ (by decide) (by decide)⟩
